import Mathlib

/-!
Shallow embedding of the request-admission core of the plantwater repository:
the in-memory rate limiter and account lockout (src/lib/rateLimit.ts),
the Redis-backed rate limiter with in-memory fallback (src/lib/redisRateLimit.ts),
the DoS-protection gate (src/lib/dosProtection.ts) and the origin-based CSRF
validator.  Timestamps are modelled as natural numbers of milliseconds
(Date.now()); the mutable module-level Map stores are threaded explicitly as
function-typed stores, and every function that mutates a store returns the
updated store alongside its result.
-/

/-- JavaScript string truthiness of an optional header value:
null/undefined and the empty string are falsy. -/
def jsTruthy : Option String → Bool
  | none => false
  | some s => s ≠ ""

/-- JavaScript `a || b` on an optional string with a string default. -/
def jsOr (a : Option String) (b : String) : String :=
  match a with
  | some s => if s = "" then b else s
  | none => b

/-- JavaScript `a || b` on an optional number with a number default:
undefined and 0 are falsy. -/
def jsOrNat (a : Option Nat) (b : Nat) : Nat :=
  match a with
  | some n => if n = 0 then b else n
  | none => b

/-- JavaScript number truthiness of an optional numeric field:
undefined and 0 are falsy. -/
def jsTruthyNat : Option Nat → Bool
  | none => false
  | some n => n ≠ 0

/-- A string-keyed map store (a JavaScript `Map`), with `none` for absent keys. -/
def StrMap (α : Type) : Type := String → Option α

/-- `Map.set`: update the store at one key. -/
def StrMap.set {α : Type} (m : StrMap α) (k : String) (v : α) : StrMap α :=
  fun k2 => if k2 = k then some v else m k2

/-- The empty store. -/
def StrMap.empty {α : Type} : StrMap α := fun _ => none

/-- JavaScript `s.trim()`: strip whitespace from both ends. -/
def jsTrim (s : String) : String :=
  ⟨((s.data.dropWhile Char.isWhitespace).reverse.dropWhile
      Char.isWhitespace).reverse⟩

/-- JavaScript `s.toUpperCase()` over the character list. -/
def jsToUpper (s : String) : String :=
  ⟨s.data.map Char.toUpper⟩

/-- JavaScript `s.toLowerCase()` over the character list. -/
def jsToLower (s : String) : String :=
  ⟨s.data.map Char.toLower⟩

/-- Splitting worker over character lists; the fuel is an upper bound on the
number of characters still to scan, so the recursion is structural. -/
def jsSplitAux (sep : List Char) : Nat → List Char → List Char →
    List (List Char)
  | 0, acc, l => [acc.reverse ++ l]
  | f + 1, acc, l =>
    if sep.isEmpty = false && List.isPrefixOf sep l then
      acc.reverse :: jsSplitAux sep f [] (l.drop sep.length)
    else
      match l with
      | [] => [acc.reverse]
      | c :: rest => jsSplitAux sep f (c :: acc) rest

/-- JavaScript `s.split(sep)` for a nonempty separator; always returns at
least one element. -/
def jsSplit (s sep : String) : List String :=
  (jsSplitAux sep.data (s.data.length + 1) [] s.data).map (fun cs => ⟨cs⟩)

/-- Split at the first occurrence of `sep`, when there is one. -/
def splitFirstAux (sep : List Char) : Nat → List Char → List Char →
    Option (List Char × List Char)
  | 0, _, _ => none
  | f + 1, acc, l =>
    if sep.isEmpty = false && List.isPrefixOf sep l then
      some (acc.reverse, l.drop sep.length)
    else
      match l with
      | [] => none
      | c :: rest => splitFirstAux sep f (c :: acc) rest

/-- The text before and after the first occurrence of `sep` in `s`, or
`none` when `sep` does not occur. -/
def splitFirstOn (s sep : String) : Option (String × String) :=
  (splitFirstAux sep.data (s.data.length + 1) [] s.data).map
    (fun p => (⟨p.1⟩, ⟨p.2⟩))

/-- First element of `s.split(sep)` followed by `.trim()`; JavaScript
`split` always returns at least one element. -/
def splitFirstTrim (s sep : String) : String :=
  jsTrim ((jsSplit s sep).headD "")

namespace rateLimit

/-- Rule shape of src/lib/rateLimit.ts: window, max requests, and an optional
block duration applied after the limit is exceeded. -/
structure RateLimitRule where
  windowMs : Nat
  maxRequests : Nat
  blockDurationMs : Option Nat
deriving DecidableEq, Repr

/-- Per-key mutable window state (`RateLimitEntry`). -/
structure RateLimitEntry where
  count : Nat
  windowStart : Nat
  blockedUntil : Option Nat
deriving DecidableEq, Repr

/-- Per-email lockout state (`AccountLockoutEntry`). -/
structure AccountLockoutEntry where
  failedAttempts : Nat
  lastFailure : Nat
  lockedUntil : Option Nat
deriving DecidableEq, Repr

/-- The named rule table `RATE_LIMIT_RULES` of rateLimit.ts. -/
structure RulesTable where
  LOGIN : RateLimitRule
  REGISTRATION : RateLimitRule
  AI_ANALYZE : RateLimitRule
  AI_IDENTIFY : RateLimitRule
  GENERAL : RateLimitRule
deriving DecidableEq, Repr

def RATE_LIMIT_RULES : RulesTable :=
  { LOGIN := ⟨15 * 60 * 1000, 5, some (15 * 60 * 1000)⟩
    REGISTRATION := ⟨60 * 60 * 1000, 3, some (60 * 60 * 1000)⟩
    AI_ANALYZE := ⟨60 * 1000, 10, some (5 * 60 * 1000)⟩
    AI_IDENTIFY := ⟨60 * 1000, 5, some (5 * 60 * 1000)⟩
    GENERAL := ⟨60 * 1000, 60, some (60 * 1000)⟩ }

/-- `ACCOUNT_LOCKOUT_CONFIG` of rateLimit.ts. -/
structure LockoutConfig where
  maxFailedAttempts : Nat
  lockoutDurationMs : Nat
  failureWindowMs : Nat
deriving DecidableEq, Repr

def ACCOUNT_LOCKOUT_CONFIG : LockoutConfig :=
  ⟨5, 30 * 60 * 1000, 15 * 60 * 1000⟩

/-- `getClientIP` of rateLimit.ts: the first entry of x-forwarded-for
(trimmed), else x-real-ip, else x-connecting-ip, else "unknown", with
JavaScript `||` falsiness at each step. -/
def getClientIP (headers : StrMap String) : String :=
  let forwarded := headers "x-forwarded-for"
  let real := headers "x-real-ip"
  let connectingIP := headers "x-connecting-ip"
  jsOr (forwarded.map (fun f => splitFirstTrim f ","))
    (jsOr real (jsOr connectingIP "unknown"))

/-- `getRateLimitKey(type, identifier, rule)` returns the template string
type:rule:identifier. -/
def getRateLimitKey (tp identifier rule : String) : String :=
  tp ++ ":" ++ rule ++ ":" ++ identifier

/-- Result shape of `isRateLimited`; absent optional fields are `none`. -/
structure RateLimitCheck where
  limited : Bool
  resetTime : Option Nat
  remaining : Option Nat
deriving DecidableEq, Repr

/-- The rate-limit store `rateLimitStore`. -/
def RLStore : Type := StrMap RateLimitEntry

/-- `isRateLimited(key, rule)` of rateLimit.ts.  The JavaScript code mutates
the looked-up entry in place; here the mutation is returned as an updated
store.  The check `entry.blockedUntil && now < entry.blockedUntil` is modelled
by the match on `blockedUntil` (a stored 0 is falsy in JavaScript and also
fails `now < 0` here, so the two agree). -/
def isRateLimited (key : String) (rule : RateLimitRule) (now : Nat)
    (store : RLStore) : RateLimitCheck × RLStore :=
  match store key with
  | none =>
    (⟨false, none, some (rule.maxRequests - 1)⟩,
     StrMap.set store key ⟨1, now, none⟩)
  | some entry =>
    if (match entry.blockedUntil with
        | some b => decide (now < b)
        | none => false) then
      (⟨true, entry.blockedUntil, none⟩, store)
    else if now - entry.windowStart > rule.windowMs then
      (⟨false, none, some (rule.maxRequests - 1)⟩,
       StrMap.set store key ⟨1, now, none⟩)
    else
      let count := entry.count + 1
      if count > rule.maxRequests then
        let blockedUntil :=
          match rule.blockDurationMs with
          | some d => some (now + d)
          | none => entry.blockedUntil
        (⟨true, some (jsOrNat blockedUntil (entry.windowStart + rule.windowMs)),
          none⟩,
         StrMap.set store key ⟨count, entry.windowStart, blockedUntil⟩)
      else
        (⟨false, none, some (rule.maxRequests - count)⟩,
         StrMap.set store key ⟨count, entry.windowStart, entry.blockedUntil⟩)

/-- Result shape of `recordFailedLogin`. -/
structure LockResult where
  locked : Bool
  lockedUntil : Option Nat
  attemptsRemaining : Option Nat
deriving DecidableEq, Repr

/-- The lockout store `accountLockoutStore`. -/
def LockoutStore : Type := StrMap AccountLockoutEntry

/-- `recordFailedLogin(email)` of rateLimit.ts. -/
def recordFailedLogin (email : String) (now : Nat) (store : LockoutStore) :
    LockResult × LockoutStore :=
  let entry := (store email).getD ⟨0, 0, none⟩
  let fa0 :=
    if now - entry.lastFailure > ACCOUNT_LOCKOUT_CONFIG.failureWindowMs then 0
    else entry.failedAttempts
  let fa := fa0 + 1
  if fa ≥ ACCOUNT_LOCKOUT_CONFIG.maxFailedAttempts then
    let lu := now + ACCOUNT_LOCKOUT_CONFIG.lockoutDurationMs
    (⟨true, some lu, none⟩, StrMap.set store email ⟨fa, now, some lu⟩)
  else
    (⟨false, none, some (ACCOUNT_LOCKOUT_CONFIG.maxFailedAttempts - fa)⟩,
     StrMap.set store email ⟨fa, now, entry.lockedUntil⟩)

/-- Result shape of `isAccountLocked`. -/
structure LockStatus where
  locked : Bool
  lockedUntil : Option Nat
deriving DecidableEq, Repr

/-- `isAccountLocked(email)` of rateLimit.ts; the guard
`!entry || !entry.lockedUntil` uses JavaScript falsiness. -/
def isAccountLocked (email : String) (now : Nat) (store : LockoutStore) :
    LockStatus × LockoutStore :=
  match store email with
  | none => (⟨false, none⟩, store)
  | some entry =>
    if jsTruthyNat entry.lockedUntil = false then (⟨false, none⟩, store)
    else
      let lu := entry.lockedUntil.getD 0
      if now ≥ lu then
        (⟨false, none⟩, StrMap.set store email ⟨0, entry.lastFailure, none⟩)
      else (⟨true, some lu⟩, store)

/-- JSON body `{error: string}` of the 429 response. -/
structure ErrorBody where
  error : String
deriving DecidableEq, Repr

/-- Model of the `NextResponse` produced by `createRateLimitResponse`. -/
structure NextResponse where
  status : Nat
  headers : List (String × String)
  body : ErrorBody
deriving DecidableEq, Repr

/-- Header lookup in a response. -/
def headerLookup (r : NextResponse) (name : String) : Option String :=
  (r.headers.find? (fun p => p.1 == name)).map (fun p => p.2)

/-- `createRateLimitResponse(resetTime?, message)` of rateLimit.ts: always a
Retry-After header (ceiling of seconds until reset, or "60"), plus an
X-RateLimit-Reset header when `resetTime` is truthy, status 429 and a JSON
body `{error: message}`.  The source formats X-RateLimit-Reset as an ISO-8601
date string; the value is modelled as the decimal timestamp (no claim depends
on the textual format of that value). -/
def createRateLimitResponse (resetTime : Option Nat) (message : String)
    (now : Nat) : NextResponse :=
  let retryAfter :=
    match resetTime with
    | some rt => toString ((rt - now + 999) / 1000)
    | none => "60"
  let headers :=
    if jsTruthyNat resetTime then
      [("Retry-After", retryAfter),
       ("X-RateLimit-Reset", toString (resetTime.getD 0))]
    else [("Retry-After", retryAfter)]
  ⟨429, headers, ⟨message⟩⟩

/-- The keys of the `RATE_LIMIT_RULES` object. -/
inductive RuleName
  | LOGIN | REGISTRATION | AI_ANALYZE | AI_IDENTIFY | GENERAL
deriving DecidableEq, Repr

def RuleName.str : RuleName → String
  | .LOGIN => "LOGIN"
  | .REGISTRATION => "REGISTRATION"
  | .AI_ANALYZE => "AI_ANALYZE"
  | .AI_IDENTIFY => "AI_IDENTIFY"
  | .GENERAL => "GENERAL"

def ruleOf : RuleName → RateLimitRule
  | .LOGIN => RATE_LIMIT_RULES.LOGIN
  | .REGISTRATION => RATE_LIMIT_RULES.REGISTRATION
  | .AI_ANALYZE => RATE_LIMIT_RULES.AI_ANALYZE
  | .AI_IDENTIFY => RATE_LIMIT_RULES.AI_IDENTIFY
  | .GENERAL => RATE_LIMIT_RULES.GENERAL

/-- The identifier type argument of `rateLimitMiddleware`. -/
inductive KeyType
  | ip | user
deriving DecidableEq, Repr

def KeyType.str : KeyType → String
  | .ip => "ip"
  | .user => "user"

/-- Result shape of `rateLimitMiddleware`. -/
structure MiddlewareResult where
  limited : Bool
  response : Option NextResponse
deriving DecidableEq, Repr

/-- `rateLimitMiddleware(ruleName, identifier, type)` of rateLimit.ts. -/
def rateLimitMiddleware (ruleName : RuleName) (identifier : String)
    (tp : KeyType) (now : Nat) (store : RLStore) :
    MiddlewareResult × RLStore :=
  let rule := ruleOf ruleName
  let key := getRateLimitKey tp.str identifier ruleName.str
  let (result, store2) := isRateLimited key rule now store
  if result.limited then
    let message :=
      match tp with
      | .user => "Too many requests from your account. Please try again later."
      | .ip => "Too many requests from your IP address. Please try again later."
    (⟨true, some (createRateLimitResponse result.resetTime message now)⟩,
     store2)
  else (⟨false, none⟩, store2)

/-- Run `isRateLimited` once per listed timestamp, threading the store. -/
def runChecks (key : String) (rule : RateLimitRule) :
    List Nat → RLStore → List RateLimitCheck × RLStore
  | [], s => ([], s)
  | t :: ts, s =>
    let (r, s2) := isRateLimited key rule t s
    let (rs, s3) := runChecks key rule ts s2
    (r :: rs, s3)

/-- Run `recordFailedLogin` once per listed timestamp, threading the store. -/
def runFailures (email : String) :
    List Nat → LockoutStore → List LockResult × LockoutStore
  | [], s => ([], s)
  | t :: ts, s =>
    let (r, s2) := recordFailedLogin email t s
    let (rs, s3) := runFailures email ts s2
    (r :: rs, s3)

/-- Run `rateLimitMiddleware` once per listed timestamp, threading the store. -/
def runMiddlewareCalls (ruleName : RuleName) (identifier : String)
    (tp : KeyType) : List Nat → RLStore → List MiddlewareResult × RLStore
  | [], s => ([], s)
  | t :: ts, s =>
    let (r, s2) := rateLimitMiddleware ruleName identifier tp t s
    let (rs, s3) := runMiddlewareCalls ruleName identifier tp ts s2
    (r :: rs, s3)

end rateLimit

namespace redisRateLimit

/-- Rule shape of src/lib/redisRateLimit.ts (window and max only). -/
structure RateLimitRule where
  windowMs : Nat
  maxRequests : Nat
deriving DecidableEq, Repr

/-- `RateLimitResult` of redisRateLimit.ts. -/
structure RateLimitResult where
  success : Bool
  totalCount : Nat
  remainingRequests : Nat
  resetTime : Nat
deriving DecidableEq, Repr

/-- Per-key record of the in-memory `fallbackStore`. -/
structure MemRecord where
  count : Nat
  resetTime : Nat
deriving DecidableEq, Repr

/-- The in-memory `fallbackStore`. -/
def MemStore : Type := StrMap MemRecord

/-- `checkRateLimitMemory(identifier, rule, prefix)` of redisRateLimit.ts:
fixed-window fallback counting.  The key is the template string
prefix:identifier (the rule is not part of the key). -/
def checkRateLimitMemory (identifier : String) (rule : RateLimitRule)
    (pre : String) (now : Nat) (store : MemStore) :
    RateLimitResult × MemStore :=
  let key := pre ++ ":" ++ identifier
  match store key with
  | none =>
    (⟨true, 1, rule.maxRequests - 1, now + rule.windowMs⟩,
     StrMap.set store key ⟨1, now + rule.windowMs⟩)
  | some record =>
    if now > record.resetTime then
      (⟨true, 1, rule.maxRequests - 1, now + rule.windowMs⟩,
       StrMap.set store key ⟨1, now + rule.windowMs⟩)
    else
      let count := record.count + 1
      (⟨decide (count ≤ rule.maxRequests), count, rule.maxRequests - count,
        record.resetTime⟩,
       StrMap.set store key ⟨count, record.resetTime⟩)

/-- Outcome of the awaited Redis pipeline inside `checkRateLimit`:
`none` models no configured Redis client, `some (Except.error ())` a raised
or timed-out store call, and `some (Except.ok n)` a successful pipeline whose
ZCARD reply is `n`. -/
def RedisOutcome : Type := Option (Except Unit Nat)

/-- `checkRateLimit(identifier, rule, prefix)` of redisRateLimit.ts.  On a
successful Redis pipeline the decision is computed from the reply and the
fallback store is untouched; when Redis is absent, or its call raises, the
in-memory fallback runs for this call (the catch block falls through). -/
def checkRateLimit (redis : RedisOutcome) (identifier : String)
    (rule : RateLimitRule) (pre : String) (now : Nat) (store : MemStore) :
    RateLimitResult × MemStore :=
  match redis with
  | some (Except.ok totalCount) =>
    (⟨decide (totalCount ≤ rule.maxRequests), totalCount,
      rule.maxRequests - totalCount, now + rule.windowMs⟩, store)
  | some (Except.error _) => checkRateLimitMemory identifier rule pre now store
  | none => checkRateLimitMemory identifier rule pre now store

/-- `LockResult` of redisRateLimit.ts. -/
structure LockResult where
  locked : Bool
  remainingTime : Option Nat
deriving DecidableEq, Repr

/-- Per-email record of the in-memory `lockStore`. -/
structure LockEntry where
  lockTime : Nat
  failures : Nat
deriving DecidableEq, Repr

def LockStore : Type := StrMap LockEntry

/-- The in-memory fallback branch of `recordFailedLogin` in
redisRateLimit.ts (the path taken when no Redis client is configured):
increment the failure count and lock for 15 minutes once it reaches 5. -/
def recordFailedLoginMemory (email : String) (now : Nat) (store : LockStore) :
    LockResult × LockStore :=
  let lockData := (store email).getD ⟨0, 0⟩
  let failures := lockData.failures + 1
  if failures ≥ 5 then
    (⟨true, some (15 * 60 * 1000)⟩,
     StrMap.set store email ⟨now, failures⟩)
  else
    (⟨false, none⟩, StrMap.set store email ⟨lockData.lockTime, failures⟩)

/-- The named rule table `RATE_LIMIT_RULES` of redisRateLimit.ts. -/
structure RulesTable where
  general : RateLimitRule
  auth : RateLimitRule
  upload : RateLimitRule
  ai : RateLimitRule
deriving DecidableEq, Repr

def RATE_LIMIT_RULES : RulesTable :=
  { general := ⟨15 * 60 * 1000, 100⟩
    auth := ⟨15 * 60 * 1000, 5⟩
    upload := ⟨60 * 60 * 1000, 20⟩
    ai := ⟨60 * 60 * 1000, 10⟩ }

/-- Run `checkRateLimitMemory` once per listed timestamp, threading the store. -/
def runMemCalls (ident : String) (rule : RateLimitRule) (pre : String) :
    List Nat → MemStore → List RateLimitResult × MemStore
  | [], s => ([], s)
  | t :: ts, s =>
    let (r, s2) := checkRateLimitMemory ident rule pre t s
    let (rs, s3) := runMemCalls ident rule pre ts s2
    (r :: rs, s3)

/-- Run `recordFailedLoginMemory` once per listed timestamp, threading the
store. -/
def runFailuresMemory (email : String) :
    List Nat → LockStore → List LockResult × LockStore
  | [], s => ([], s)
  | t :: ts, s =>
    let (r, s2) := recordFailedLoginMemory email t s
    let (rs, s3) := runFailuresMemory email ts s2
    (r :: rs, s3)

/-- Repeat `checkRateLimit` (Redis absent) at time 0, keeping only the final
fallback store. -/
def exhaustStore (ident : String) (rule : RateLimitRule) (pre : String) :
    Nat → MemStore → MemStore
  | 0, s => s
  | n + 1, s => exhaustStore ident rule pre n (checkRateLimit none ident rule pre 0 s).2

end redisRateLimit

/-- Does `sub` occur as a contiguous substring of the character list `l`
(the semantics of JavaScript `String.prototype.includes`). -/
def charSub : List Char → List Char → Bool
  | l, sub =>
    match l with
    | [] => sub.isEmpty
    | _ :: rest => List.isPrefixOf sub l || charSub rest sub

/-- JavaScript `s.includes(sub)`. -/
def jsIncludes (s sub : String) : Bool :=
  charSub s.data sub.data

/-- Value of a digit character. -/
def digitVal (c : Char) : Nat := c.toNat - '0'.toNat

/-- JavaScript `parseInt(s, 10)`: skip leading whitespace, read an optional
sign, then the longest prefix of decimal digits; `none` models NaN (no digit
found). -/
def jsParseInt (s : String) : Option Int :=
  let cs := s.data.dropWhile Char.isWhitespace
  let signed : Int × List Char :=
    match cs with
    | '-' :: rest => (-1, rest)
    | '+' :: rest => (1, rest)
    | rest => (1, rest)
  let digits := signed.2.takeWhile Char.isDigit
  if digits.isEmpty then none
  else some (signed.1 * (digits.foldl (fun a c => a * 10 + digitVal c) 0 : Nat))

namespace dosProtection

/-- `DoSProtectionConfig` of dosProtection.ts. -/
structure DoSConfig where
  enabled : Bool
  maxRequestSize : Nat
  maxConcurrentRequests : Nat
  requestTimeout : Nat
  suspiciousPatternDetection : Bool
deriving DecidableEq, Repr

/-- The configuration built in the `DoSProtectionService` constructor;
`enabled` is true exactly when NODE_ENV is "production". -/
def serviceConfig (isProductionEnv : Bool) : DoSConfig :=
  ⟨isProductionEnv, 10 * 1024 * 1024, 50, 30000, true⟩

/-- `RequestMetrics` of dosProtection.ts; `size` is `none` when the parsed
content length was NaN. -/
structure RequestMetrics where
  startTime : Nat
  size : Option Int
  ip : String
  userAgent : String
  path : String
deriving DecidableEq, Repr

/-- The mutable per-instance state of `DoSProtectionService`:
`suspiciousIPs`, `activeRequests`, `requestCounts`, and the embedded
`redisRateLimiter` fallback store that `protect` reads and writes through
`checkRateLimit`. -/
structure GateState where
  suspiciousIPs : List String
  activeRequests : List (String × RequestMetrics)
  requestCounts : StrMap Nat
  rlStore : redisRateLimit.MemStore

/-- The state of a freshly constructed service. -/
def initialGateState : GateState :=
  ⟨[], [], StrMap.empty, StrMap.empty⟩

/-- An inbound request as the gate sees it: its headers and
`nextUrl.pathname`. -/
structure DoSRequest where
  headers : StrMap String
  path : String

/-- A plain `NextResponse(body, {status, headers})`. -/
structure HttpResponse where
  status : Nat
  headers : List (String × String)
  body : String
deriving DecidableEq, Repr

/-- `getClientIP` of dosProtection.ts: cf-connecting-ip, else x-real-ip,
else the first (trimmed) entry of x-forwarded-for, else the host header,
else "unknown", with JavaScript truthiness at each step. -/
def getClientIP (headers : StrMap String) : String :=
  let xForwardedFor := headers "x-forwarded-for"
  let xRealIP := headers "x-real-ip"
  let cfConnectingIP := headers "cf-connecting-ip"
  if jsTruthy cfConnectingIP then cfConnectingIP.getD ""
  else if jsTruthy xRealIP then xRealIP.getD ""
  else if jsTruthy xForwardedFor then splitFirstTrim (xForwardedFor.getD "") ","
  else jsOr (headers "host") "unknown"

/-- Result of `checkRequestSize`; `size = none` models NaN. -/
structure SizeCheckResult where
  allowed : Bool
  size : Option Int
deriving DecidableEq, Repr

/-- `checkRequestSize` of dosProtection.ts: a truthy content-length header is
parsed with `parseInt` and compared against the configured maximum (the NaN
comparison is false, hence not allowed); a missing or empty header passes
with size 0. -/
def checkRequestSize (cfg : DoSConfig) (headers : StrMap String) :
    SizeCheckResult :=
  let contentLength := headers "content-length"
  if jsTruthy contentLength then
    match jsParseInt (contentLength.getD "") with
    | some n => ⟨decide (n ≤ (cfg.maxRequestSize : Int)), some n⟩
    | none => ⟨false, none⟩
  else ⟨true, some 0⟩

/-- `checkConcurrentRequests` of dosProtection.ts: the number of active
requests recorded for this IP must stay below the configured maximum. -/
def checkConcurrentRequests (st : GateState) (ip : String)
    (cfg : DoSConfig) : Bool :=
  (st.activeRequests.filter (fun p => p.2.ip == ip)).length
    < cfg.maxConcurrentRequests

/-- Result of the per-endpoint rate limit step inside `protect`. -/
structure GateRateResult where
  allowed : Bool
  retryAfter : Nat
  remaining : Nat
deriving DecidableEq, Repr

/-- `checkRateLimit` of dosProtection.ts: pick a rule by path classification
and delegate to `redisRateLimiter.checkRateLimit(ip, rule, "dos")`. -/
def gateCheckRateLimit (path ip : String) (redis : redisRateLimit.RedisOutcome)
    (now : Nat) (store : redisRateLimit.MemStore) :
    GateRateResult × redisRateLimit.MemStore :=
  let rule :=
    if jsIncludes path "/auth/" then redisRateLimit.RATE_LIMIT_RULES.auth
    else if jsIncludes path "/upload" then redisRateLimit.RATE_LIMIT_RULES.upload
    else if jsIncludes path "/analyze" || jsIncludes path "/identify" then
      redisRateLimit.RATE_LIMIT_RULES.ai
    else redisRateLimit.RATE_LIMIT_RULES.general
  let (result, store2) := redisRateLimit.checkRateLimit redis ip rule "dos" now store
  (⟨result.success, result.resetTime - now, result.remainingRequests⟩, store2)

/-- Result of `detectSuspiciousPatterns`. -/
structure SuspiciousResult where
  suspicious : Bool
  reason : Option String
deriving DecidableEq, Repr

/-- The known-automation user-agent token list. -/
def suspiciousAgents : List String :=
  ["python", "curl", "wget", "libwww", "lwp", "scanner", "bot", "crawler"]

/-- `detectSuspiciousPatterns` of dosProtection.ts, in source order: bot-like
user agent (checked before any mutation), then the rolling per-IP counter
(incremented here; the frequency test reads the pre-increment value), then a
path-traversal-like content-type, then path traversal in the URL.  The
delayed setTimeout decrement of the counter is outside this per-call model. -/
def detectSuspiciousPatterns (req : DoSRequest) (ip userAgent : String)
    (st : GateState) : SuspiciousResult × GateState :=
  let lowerAgent := jsToLower userAgent
  if suspiciousAgents.any (fun agent => jsIncludes lowerAgent agent) then
    (⟨true, some "Suspicious user agent"⟩, st)
  else
    let currentCount := (st.requestCounts ip).getD 0
    let st2 := { st with requestCounts := st.requestCounts.set ip (currentCount + 1) }
    if currentCount > 20 then
      (⟨true, some "High request frequency"⟩, st2)
    else if (match req.headers "content-type" with
             | some ct => jsTruthy (some ct) && jsIncludes ct "../../"
             | none => false) then
      (⟨true, some "Malformed content-type header"⟩, st2)
    else if jsIncludes req.path "../" || jsIncludes req.path "..\\" then
      (⟨true, some "Path traversal attempt"⟩, st2)
    else (⟨false, none⟩, st2)

/-- `markIPSuspicious` of dosProtection.ts (the 30-minute TTL removal is a
delayed timer outside this per-call model). -/
def markIPSuspicious (ip : String) (st : GateState) : GateState :=
  if st.suspiciousIPs.contains ip then st
  else { st with suspiciousIPs := ip :: st.suspiciousIPs }

/-- A point of steps 2 to 5 of `protect` at which an internal error (a raised
exception) is injected; used to model the surrounding try/catch. -/
inductive FaultStep
  | atSize | atConcurrency | atRateLimit | atPatterns
deriving DecidableEq, Repr

/-- The body of the try block of `protect` (steps 1 to 5 plus the final
request tracking).  A `fault` at a step models that step raising; the
`Except.error` carries the state accumulated so far, exactly what the
JavaScript catch block is left with. -/
def protectSteps (cfg : DoSConfig) (req : DoSRequest) (now : Nat)
    (requestId : String) (redis : redisRateLimit.RedisOutcome)
    (fault : Option FaultStep) (st : GateState) :
    Except GateState (Option HttpResponse × GateState) :=
  let ip := getClientIP req.headers
  let userAgent := jsOr (req.headers "user-agent") "unknown"
  if st.suspiciousIPs.contains ip then
    Except.ok (some ⟨429, [], "Request blocked"⟩, st)
  else if fault = some FaultStep.atSize then Except.error st
  else
    let sizeCheck := checkRequestSize cfg req.headers
    if sizeCheck.allowed = false then
      Except.ok (some ⟨413, [], "Request too large"⟩, st)
    else if fault = some FaultStep.atConcurrency then Except.error st
    else if checkConcurrentRequests st ip cfg = false then
      Except.ok (some ⟨429, [], "Too many concurrent requests"⟩, st)
    else if fault = some FaultStep.atRateLimit then Except.error st
    else
      let (rl, rlStore2) := gateCheckRateLimit req.path ip redis now st.rlStore
      let st2 := { st with rlStore := rlStore2 }
      if rl.allowed = false then
        Except.ok (some ⟨429,
          [("Retry-After", toString ((rl.retryAfter + 999) / 1000)),
           ("X-RateLimit-Remaining", toString rl.remaining)],
          "Rate limit exceeded"⟩, st2)
      else if fault = some FaultStep.atPatterns then Except.error st2
      else
        let afterPatterns : SuspiciousResult × GateState :=
          if cfg.suspiciousPatternDetection then
            detectSuspiciousPatterns req ip userAgent st2
          else (⟨false, none⟩, st2)
        if afterPatterns.1.suspicious then
          Except.ok (some ⟨429, [], "Request blocked"⟩,
            markIPSuspicious ip afterPatterns.2)
        else
          let st3 := afterPatterns.2
          Except.ok (none,
            { st3 with activeRequests :=
                (requestId, ⟨now, sizeCheck.size, ip, userAgent, req.path⟩)
                  :: st3.activeRequests.filter (fun p => p.1 ≠ requestId) })

/-- `protect` of dosProtection.ts: immediately admits when the service is not
enabled; otherwise runs the try block, and on any internal error in it
catches, logs and admits (fail-open). -/
def protect (cfg : DoSConfig) (req : DoSRequest) (now : Nat)
    (requestId : String) (redis : redisRateLimit.RedisOutcome)
    (fault : Option FaultStep) (st : GateState) :
    Option HttpResponse × GateState :=
  if cfg.enabled = false then (none, st)
  else
    match protectSteps cfg req now requestId redis fault st with
    | Except.ok r => r
    | Except.error st2 => (none, st2)

end dosProtection

namespace csrf

/-- Modelled from the spec: the state-changing method set of the CSRF
validator (src/lib/csrf.ts is not part of the source snapshot; only its
tests, docs and callers are).  Spec section 4.4 gates the check on
create/update/delete-style methods, and the test suite fixes the set as
POST, PUT, DELETE, PATCH compared after upper-casing. -/
def STATE_CHANGING_METHODS : List String :=
  ["POST", "PUT", "DELETE", "PATCH"]

/-- Modelled from the spec: derive the scheme://host origin of a referer URL,
or fail on a malformed one.  Spec section 4.4 step 3 parses the referer as a
URL and rejects on parse failure; a URL here is scheme, the literal
separator, and a nonempty host extending to the first slash. -/
def parseRefererOrigin (referer : String) : Option String :=
  match splitFirstOn referer "://" with
  | none => none
  | some (scheme, tail) =>
    let host := (jsSplit tail "/").headD ""
    if scheme = "" ∨ host = "" then none
    else some (scheme ++ "://" ++ host)

/-- Modelled from the spec: `validateCSRF(method, origin, referer,
allowedOrigins)` per spec section 4.4 — non-state-changing methods pass
unchecked; a present Origin must be an exact member of the allow-list; with
no Origin, a present Referer is parsed and its scheme://host checked; with
neither header the request is rejected. -/
def validateCSRF (method : String) (origin referer : Option String)
    (allowedOrigins : List String) : Bool :=
  if (STATE_CHANGING_METHODS.contains (jsToUpper method)) = false then true
  else if jsTruthy origin then allowedOrigins.contains (origin.getD "")
  else if jsTruthy referer then
    match parseRefererOrigin (referer.getD "") with
    | some o => allowedOrigins.contains o
    | none => false
  else false

/-- Modelled from the spec: `csrfProtection` returns null to admit and an
HTTP 403 payload with the stable code CSRF_VALIDATION_FAILED to reject. -/
def csrfProtection (method : String) (origin referer : Option String)
    (allowedOrigins : List String) : Option dosProtection.HttpResponse :=
  if validateCSRF method origin referer allowedOrigins then none
  else some ⟨403, [], "CSRF_VALIDATION_FAILED"⟩

end csrf

/-- The header try-order asserted by the specification, applied to the
header names read by getClientIP of rateLimit.ts: CDN-specific real IP
(x-connecting-ip) first, then the reverse-proxy real IP (x-real-ip), then
the first entry of x-forwarded-for, then the "unknown" token.  Written from
the words of the spec for comparison with the source translation. -/
def claimOrderClientIP (headers : StrMap String) : String :=
  jsOr (headers "x-connecting-ip")
    (jsOr (headers "x-real-ip")
      (jsOr ((headers "x-forwarded-for").map (fun f => splitFirstTrim f ","))
        "unknown"))

/-- Concrete header fixture carrying every IP-bearing header at once. -/
def hdrsC8 : StrMap String := fun k =>
  if k = "x-forwarded-for" then some "7.7.7.7, 8.8.8.8"
  else if k = "x-real-ip" then some "6.6.6.6"
  else if k = "x-connecting-ip" then some "9.9.9.9"
  else if k = "cf-connecting-ip" then some "1.1.1.1"
  else none

/-- A request with no headers at all. -/
def reqPlain : dosProtection.DoSRequest :=
  ⟨StrMap.empty, "/api/plants"⟩

/-- A request whose content-length header is present but empty. -/
def reqEmptyCL : dosProtection.DoSRequest :=
  ⟨fun k =>
    if k = "content-length" then some ""
    else if k = "user-agent" then some "Mozilla/5.0"
    else none, "/api/plants"⟩

/-- A request whose content-length header does not parse as a number. -/
def reqBadCL : dosProtection.DoSRequest :=
  ⟨fun k =>
    if k = "content-length" then some "abc"
    else if k = "user-agent" then some "Mozilla/5.0"
    else none, "/api/plants"⟩

/-- The rate-limit store after five LOGIN middleware calls for one IP at
time 0: the next call within the window is the sixth and is rejected. -/
def c7Store : rateLimit.RLStore :=
  (rateLimit.runMiddlewareCalls rateLimit.RuleName.LOGIN "1.2.3.4"
    rateLimit.KeyType.ip [0, 0, 0, 0, 0] StrMap.empty).2

/-- A lockout store holding one account whose lock expires at 1800000. -/
def c5Store : rateLimit.LockoutStore :=
  StrMap.set StrMap.empty "alice@example.com" ⟨5, 0, some 1800000⟩

theorem StrMap.get_set_self {α : Type} (m : StrMap α) (k : String) (v : α) :
    m.set k v k = some v := by
  simp [StrMap.set]

theorem StrMap.get_set_ne {α : Type} (m : StrMap α) (k k2 : String) (v : α)
    (h : k2 ≠ k) : m.set k v k2 = m k2 := by
  simp [StrMap.set, h]

theorem jsOr_of_truthy (a : Option String) (b : String) (h : jsTruthy a = true) :
    jsOr a b = a.getD "" := by
  cases a with
  | none => simp [jsTruthy] at h
  | some s =>
    simp only [jsTruthy, ne_eq, decide_not] at h
    simp only [jsOr, Option.getD_some, ite_eq_right_iff]
    intro hs
    simp [hs] at h

theorem jsOr_of_falsy (a : Option String) (b : String) (h : jsTruthy a = false) :
    jsOr a b = b := by
  cases a with
  | none => rfl
  | some s =>
    have hs : s = "" := by simpa [jsTruthy] using h
    simp [jsOr, hs]

theorem jsOrNat_pos (a : Option Nat) (b : Nat) (hb : 0 < b) : 0 < jsOrNat a b := by
  cases a with
  | none => simpa [jsOrNat]
  | some n =>
    simp only [jsOrNat]
    split
    · exact hb
    · omega

/-- A call of `isRateLimited` never touches the state stored at any other
key. -/
theorem isRateLimited_frame (key key2 : String) (rule : rateLimit.RateLimitRule)
    (now : Nat) (s : rateLimit.RLStore) (h : key2 ≠ key) :
    ((rateLimit.isRateLimited key rule now s).2) key2 = s key2 := by
  unfold rateLimit.isRateLimited
  cases hsk : s key with
  | none => simp [StrMap.set, h]
  | some entry =>
    simp only []
    split
    · rfl
    · split
      · simp [StrMap.set, h]
      · split <;> simp [StrMap.set, h]

/-- A limited `isRateLimited` result always carries a positive reset time,
given a positive window (every table rule has one). -/
theorem isRateLimited_limited_reset (key : String) (rule : rateLimit.RateLimitRule)
    (now : Nat) (s : rateLimit.RLStore) (hw : 0 < rule.windowMs)
    (hlim : (rateLimit.isRateLimited key rule now s).1.limited = true) :
    ∃ rt, (rateLimit.isRateLimited key rule now s).1.resetTime = some rt ∧ 0 < rt := by
  unfold rateLimit.isRateLimited at hlim ⊢
  cases hsk : s key with
  | none => rw [hsk] at hlim; simp at hlim
  | some entry =>
    rw [hsk] at hlim
    dsimp only at hlim ⊢
    cases hbu : entry.blockedUntil with
    | some b =>
      rw [hbu] at hlim
      by_cases hnb : now < b
      · rw [if_pos (decide_eq_true hnb)] at hlim ⊢
        exact ⟨b, rfl, by omega⟩
      · rw [if_neg (by simp [hnb])] at hlim ⊢
        by_cases hwin : now - entry.windowStart > rule.windowMs
        · simp [hwin] at hlim
        · simp only [hwin, if_false] at hlim ⊢
          by_cases hcnt : entry.count + 1 > rule.maxRequests
          · simp only [hcnt, if_true] at hlim ⊢
            cases hbd : rule.blockDurationMs with
            | none =>
              refine ⟨jsOrNat (some b) (entry.windowStart + rule.windowMs), by simp, ?_⟩
              exact jsOrNat_pos _ _ (by omega)
            | some d =>
              exact ⟨jsOrNat (some (now + d)) (entry.windowStart + rule.windowMs), by simp,
                jsOrNat_pos _ _ (by omega)⟩
          · simp [hcnt] at hlim
    | none =>
      rw [hbu] at hlim
      simp only [Bool.false_eq_true, if_false] at hlim ⊢
      by_cases hwin : now - entry.windowStart > rule.windowMs
      · simp [hwin] at hlim
      · simp only [hwin, if_false] at hlim ⊢
        by_cases hcnt : entry.count + 1 > rule.maxRequests
        · simp only [hcnt, if_true] at hlim ⊢
          cases hbd : rule.blockDurationMs with
          | none =>
            exact ⟨jsOrNat none (entry.windowStart + rule.windowMs), by simp,
              jsOrNat_pos _ _ (by omega)⟩
          | some d =>
            exact ⟨jsOrNat (some (now + d)) (entry.windowStart + rule.windowMs), by simp,
              jsOrNat_pos _ _ (by omega)⟩
        · simp [hcnt] at hlim

/-- C1 (counterexample): calls of `checkRateLimit` with the same scope prefix
and identifier but different rules share one fallback counter, because the
key is only prefix:identifier.  After eleven calls under the LOGIN rule for
ip 1.2.3.4, the first call under the AI_ANALYZE rule for the same identifier
and scope is already denied with count 12, while on a fresh store the very
same call succeeds with count 1 — exhausting one rule does affect the other,
contrary to the claim. -/
theorem C1_shared_state_counterexample :
    (redisRateLimit.checkRateLimit none "1.2.3.4" ⟨60000, 10⟩ "ip" 0
      (redisRateLimit.exhaustStore "1.2.3.4" ⟨900000, 5⟩ "ip" 11 StrMap.empty)).1
      = ⟨false, 12, 0, 900000⟩
    ∧ (redisRateLimit.checkRateLimit none "1.2.3.4" ⟨60000, 10⟩ "ip" 0
        StrMap.empty).1
      = ⟨true, 1, 9, 60000⟩ :=
  ⟨rfl, rfl⟩

/-- C1 (amended): rate-limit state is keyed independently for the
getRateLimitKey-based limiter, whose keys are type:rule:identifier — a call
of `isRateLimited` never touches any other key, the LOGIN and AI_ANALYZE
keys for one identifier always differ, so exhausting ip:LOGIN:id leaves
ip:AI_ANALYZE:id untouched — and keys in different scopes (ip versus user)
never collide, in the type:rule:identifier scheme and in the
prefix:identifier scheme of `checkRateLimit` alike.  In `checkRateLimit`
itself, however, the rule is not part of the key, so calls with the same
scope and identifier but different rules share state (see the
counterexample). -/
theorem C1_rule_scope_keying_amended :
    (∀ key key2 rule now s, key2 ≠ key →
      ((rateLimit.isRateLimited key rule now s).2) key2 = s key2)
    ∧ (∀ ident, rateLimit.getRateLimitKey "ip" ident "LOGIN"
        ≠ rateLimit.getRateLimitKey "ip" ident "AI_ANALYZE")
    ∧ (∀ ident rule now s,
        ((rateLimit.isRateLimited (rateLimit.getRateLimitKey "ip" ident "LOGIN")
            rule now s).2) (rateLimit.getRateLimitKey "ip" ident "AI_ANALYZE")
          = s (rateLimit.getRateLimitKey "ip" ident "AI_ANALYZE"))
    ∧ (∀ r1 i1 r2 i2, rateLimit.getRateLimitKey "ip" i1 r1
        ≠ rateLimit.getRateLimitKey "user" i2 r2)
    ∧ (∀ i1 i2, ("ip" ++ ":" ++ i1 : String) ≠ ("user" ++ ":" ++ i2 : String)) := by
  have keyNe : ∀ ident : String,
      rateLimit.getRateLimitKey "ip" ident "LOGIN"
        ≠ rateLimit.getRateLimitKey "ip" ident "AI_ANALYZE" := by
    intro ident h
    have h2 := congrArg String.length h
    unfold rateLimit.getRateLimitKey at h2
    rw [show ("ip" ++ ":" ++ "LOGIN" ++ ":" ++ ident : String)
        = "ip:LOGIN:" ++ ident from rfl,
      show ("ip" ++ ":" ++ "AI_ANALYZE" ++ ":" ++ ident : String)
        = "ip:AI_ANALYZE:" ++ ident from rfl,
      String.length_append, String.length_append] at h2
    have e1 : ("ip:LOGIN:" : String).length = 9 := rfl
    have e2 : ("ip:AI_ANALYZE:" : String).length = 14 := rfl
    rw [e1, e2] at h2
    omega
  refine ⟨fun key key2 rule now s h => isRateLimited_frame key key2 rule now s h,
    keyNe, ?_, ?_, ?_⟩
  · intro ident rule now s
    exact isRateLimited_frame _ _ rule now s (Ne.symm (keyNe ident))
  · intro r1 i1 r2 i2 h
    unfold rateLimit.getRateLimitKey at h
    have hd := congrArg String.data h
    simp only [String.data_append] at hd
    simp at hd
  · intro i1 i2 h
    have hd := congrArg String.data h
    simp only [String.data_append] at hd
    simp at hd

/-- C1 (witness). -/
theorem C1_rule_scope_keying_witness :
    ((rateLimit.isRateLimited "ip:LOGIN:1.2.3.4" rateLimit.RATE_LIMIT_RULES.LOGIN
        0 StrMap.empty).2) "ip:AI_ANALYZE:1.2.3.4" = none
    ∧ rateLimit.getRateLimitKey "ip" "1.2.3.4" "LOGIN"
      ≠ rateLimit.getRateLimitKey "ip" "1.2.3.4" "AI_ANALYZE" := by
  constructor
  · exact (C1_rule_scope_keying_amended.1 "ip:LOGIN:1.2.3.4" "ip:AI_ANALYZE:1.2.3.4"
      rateLimit.RATE_LIMIT_RULES.LOGIN 0 StrMap.empty (by decide)).trans rfl
  · exact C1_rule_scope_keying_amended.2.1 "1.2.3.4"

/-- C2: for a rule with windowMs 60000 and maxRequests 3, four calls at
non-decreasing times within one window of a fresh key behave as claimed in
both rate-limit checks: `checkRateLimitMemory` answers success with
remaining 2, 1, 0 on the first three calls and failure (count 4, remaining
0) on the fourth, and `isRateLimited` answers not limited with remaining
2, 1, 0 then limited on the fourth; the fourth request is itself counted
(the stored count is 4) but marked disallowed. -/
theorem C2_window_correctness (ident pre key2 : String)
    (s : redisRateLimit.MemStore) (rs : rateLimit.RLStore) (t1 t2 t3 t4 : Nat)
    (h12 : t1 ≤ t2) (h23 : t2 ≤ t3) (h34 : t3 ≤ t4) (hin : t4 ≤ t1 + 60000)
    (hfresh : s (pre ++ ":" ++ ident) = none) (hfresh2 : rs key2 = none) :
    (redisRateLimit.runMemCalls ident ⟨60000, 3⟩ pre [t1, t2, t3, t4] s).1 =
      [⟨true, 1, 2, t1 + 60000⟩, ⟨true, 2, 1, t1 + 60000⟩,
       ⟨true, 3, 0, t1 + 60000⟩, ⟨false, 4, 0, t1 + 60000⟩]
    ∧ (rateLimit.runChecks key2 ⟨60000, 3, none⟩ [t1, t2, t3, t4] rs).1 =
      [⟨false, none, some 2⟩, ⟨false, none, some 1⟩, ⟨false, none, some 0⟩,
       ⟨true, some (t1 + 60000), none⟩]
    ∧ ((rateLimit.runChecks key2 ⟨60000, 3, none⟩ [t1, t2, t3, t4] rs).2) key2
      = some ⟨4, t1, none⟩ := by
  have m1 : redisRateLimit.checkRateLimitMemory ident ⟨60000, 3⟩ pre t1 s =
      (⟨true, 1, 2, t1 + 60000⟩,
       StrMap.set s (pre ++ ":" ++ ident) ⟨1, t1 + 60000⟩) := by
    simp [redisRateLimit.checkRateLimitMemory, hfresh]
  have m2 : redisRateLimit.checkRateLimitMemory ident ⟨60000, 3⟩ pre t2
      (StrMap.set s (pre ++ ":" ++ ident) ⟨1, t1 + 60000⟩) =
      (⟨true, 2, 1, t1 + 60000⟩,
       StrMap.set (StrMap.set s (pre ++ ":" ++ ident) ⟨1, t1 + 60000⟩)
         (pre ++ ":" ++ ident) ⟨2, t1 + 60000⟩) := by
    simp only [redisRateLimit.checkRateLimitMemory, StrMap.get_set_self]
    rw [if_neg (by omega)]
    exact rfl
  have m3 : redisRateLimit.checkRateLimitMemory ident ⟨60000, 3⟩ pre t3
      (StrMap.set (StrMap.set s (pre ++ ":" ++ ident) ⟨1, t1 + 60000⟩)
        (pre ++ ":" ++ ident) ⟨2, t1 + 60000⟩) =
      (⟨true, 3, 0, t1 + 60000⟩,
       StrMap.set (StrMap.set (StrMap.set s (pre ++ ":" ++ ident) ⟨1, t1 + 60000⟩)
         (pre ++ ":" ++ ident) ⟨2, t1 + 60000⟩) (pre ++ ":" ++ ident)
         ⟨3, t1 + 60000⟩) := by
    simp only [redisRateLimit.checkRateLimitMemory, StrMap.get_set_self]
    rw [if_neg (by omega)]
    exact rfl
  have m4 : redisRateLimit.checkRateLimitMemory ident ⟨60000, 3⟩ pre t4
      (StrMap.set (StrMap.set (StrMap.set s (pre ++ ":" ++ ident) ⟨1, t1 + 60000⟩)
        (pre ++ ":" ++ ident) ⟨2, t1 + 60000⟩) (pre ++ ":" ++ ident)
        ⟨3, t1 + 60000⟩) =
      (⟨false, 4, 0, t1 + 60000⟩,
       StrMap.set (StrMap.set (StrMap.set (StrMap.set s (pre ++ ":" ++ ident)
         ⟨1, t1 + 60000⟩) (pre ++ ":" ++ ident) ⟨2, t1 + 60000⟩)
         (pre ++ ":" ++ ident) ⟨3, t1 + 60000⟩) (pre ++ ":" ++ ident)
         ⟨4, t1 + 60000⟩) := by
    simp only [redisRateLimit.checkRateLimitMemory, StrMap.get_set_self]
    rw [if_neg (by omega)]
    exact rfl
  have r1 : rateLimit.isRateLimited key2 ⟨60000, 3, none⟩ t1 rs =
      (⟨false, none, some 2⟩, StrMap.set rs key2 ⟨1, t1, none⟩) := by
    simp [rateLimit.isRateLimited, hfresh2]
  have r2 : rateLimit.isRateLimited key2 ⟨60000, 3, none⟩ t2
      (StrMap.set rs key2 ⟨1, t1, none⟩) =
      (⟨false, none, some 1⟩,
       StrMap.set (StrMap.set rs key2 ⟨1, t1, none⟩) key2 ⟨2, t1, none⟩) := by
    simp only [rateLimit.isRateLimited, StrMap.get_set_self]
    rw [if_neg (by simp), if_neg (by omega), if_neg (by omega)]
  have r3 : rateLimit.isRateLimited key2 ⟨60000, 3, none⟩ t3
      (StrMap.set (StrMap.set rs key2 ⟨1, t1, none⟩) key2 ⟨2, t1, none⟩) =
      (⟨false, none, some 0⟩,
       StrMap.set (StrMap.set (StrMap.set rs key2 ⟨1, t1, none⟩) key2
         ⟨2, t1, none⟩) key2 ⟨3, t1, none⟩) := by
    simp only [rateLimit.isRateLimited, StrMap.get_set_self]
    rw [if_neg (by simp), if_neg (by omega), if_neg (by omega)]
  have r4 : rateLimit.isRateLimited key2 ⟨60000, 3, none⟩ t4
      (StrMap.set (StrMap.set (StrMap.set rs key2 ⟨1, t1, none⟩) key2
        ⟨2, t1, none⟩) key2 ⟨3, t1, none⟩) =
      (⟨true, some (t1 + 60000), none⟩,
       StrMap.set (StrMap.set (StrMap.set (StrMap.set rs key2 ⟨1, t1, none⟩)
         key2 ⟨2, t1, none⟩) key2 ⟨3, t1, none⟩) key2 ⟨4, t1, none⟩) := by
    simp only [rateLimit.isRateLimited, StrMap.get_set_self]
    rw [if_neg (by simp), if_neg (by omega), if_pos (by omega)]
    rfl
  refine ⟨?_, ?_, ?_⟩
  · simp [redisRateLimit.runMemCalls, m1, m2, m3, m4]
  · simp [rateLimit.runChecks, r1, r2, r3, r4]
  · simp [rateLimit.runChecks, r1, r2, r3, r4, StrMap.get_set_self]

/-- C2 (witness). -/
theorem C2_window_correctness_witness :
    (redisRateLimit.runMemCalls "1.2.3.4" ⟨60000, 3⟩ "rl" [0, 0, 0, 0]
        StrMap.empty).1 =
      [⟨true, 1, 2, 0 + 60000⟩, ⟨true, 2, 1, 0 + 60000⟩,
       ⟨true, 3, 0, 0 + 60000⟩, ⟨false, 4, 0, 0 + 60000⟩]
    ∧ (rateLimit.runChecks "k2" ⟨60000, 3, none⟩ [0, 0, 0, 0] StrMap.empty).1 =
      [⟨false, none, some 2⟩, ⟨false, none, some 1⟩, ⟨false, none, some 0⟩,
       ⟨true, some (0 + 60000), none⟩]
    ∧ ((rateLimit.runChecks "k2" ⟨60000, 3, none⟩ [0, 0, 0, 0] StrMap.empty).2) "k2"
      = some ⟨4, 0, none⟩ :=
  C2_window_correctness "1.2.3.4" "rl" "k2" StrMap.empty StrMap.empty 0 0 0 0
    (Nat.le_refl 0) (Nat.le_refl 0) (Nat.le_refl 0) (Nat.zero_le _) rfl rfl

/-- C3: the CSRF validator over allowedOrigins = [http://localhost:3000]
decides exactly as claimed: a POST with the allowed Origin is admitted, a
POST with a foreign Origin is rejected with 403, a POST with no Origin but
an allowed Referer page is admitted via the scheme://host of the referer, a
POST with a malformed Referer is rejected, a POST with neither header is
rejected, and a GET with a bad Origin is admitted because the method is not
state-changing. -/
theorem C3_csrf_allow_list :
    csrf.csrfProtection "POST" (some "http://localhost:3000") none
      ["http://localhost:3000"] = none
    ∧ csrf.csrfProtection "POST" (some "https://evil.example") none
      ["http://localhost:3000"] = some ⟨403, [], "CSRF_VALIDATION_FAILED"⟩
    ∧ csrf.csrfProtection "POST" none (some "http://localhost:3000/page")
      ["http://localhost:3000"] = none
    ∧ csrf.csrfProtection "POST" none (some "not a url")
      ["http://localhost:3000"] = some ⟨403, [], "CSRF_VALIDATION_FAILED"⟩
    ∧ csrf.csrfProtection "POST" none none
      ["http://localhost:3000"] = some ⟨403, [], "CSRF_VALIDATION_FAILED"⟩
    ∧ csrf.csrfProtection "GET" (some "https://evil.example") none
      ["http://localhost:3000"] = none := by
  refine ⟨?_, ?_, ?_, ?_, ?_, ?_⟩ <;> decide

/-- C4: from no recorded failures, four calls of `recordFailedLogin` at
non-decreasing times with gaps within the failure window return locked =
false with attemptsRemaining 4, 3, 2, 1, and the fifth returns locked = true
with lockedUntil populated (t5 + 30 minutes); the in-memory fallback of the
redisRateLimit lockout likewise reports not locked four times and locked on
the fifth call. -/
theorem C4_lockout_threshold (email e2 : String) (ls : rateLimit.LockoutStore)
    (rls : redisRateLimit.LockStore) (t1 t2 t3 t4 t5 u1 u2 u3 u4 u5 : Nat)
    (g2 : t2 ≤ t1 + 900000) (g3 : t3 ≤ t2 + 900000)
    (g4 : t4 ≤ t3 + 900000) (g5 : t5 ≤ t4 + 900000)
    (hfresh : ls email = none) (hfresh2 : rls e2 = none) :
    (rateLimit.runFailures email [t1, t2, t3, t4, t5] ls).1 =
      [⟨false, none, some 4⟩, ⟨false, none, some 3⟩, ⟨false, none, some 2⟩,
       ⟨false, none, some 1⟩, ⟨true, some (t5 + 1800000), none⟩]
    ∧ (redisRateLimit.runFailuresMemory e2 [u1, u2, u3, u4, u5] rls).1 =
      [⟨false, none⟩, ⟨false, none⟩, ⟨false, none⟩, ⟨false, none⟩,
       ⟨true, some 900000⟩] := by
  have f1 : rateLimit.recordFailedLogin email t1 ls =
      (⟨false, none, some 4⟩, StrMap.set ls email ⟨1, t1, none⟩) := by
    simp [rateLimit.recordFailedLogin, rateLimit.ACCOUNT_LOCKOUT_CONFIG, hfresh]
  have f2 : rateLimit.recordFailedLogin email t2 (StrMap.set ls email ⟨1, t1, none⟩) =
      (⟨false, none, some 3⟩,
       StrMap.set (StrMap.set ls email ⟨1, t1, none⟩) email ⟨2, t2, none⟩) := by
    simp only [rateLimit.recordFailedLogin, rateLimit.ACCOUNT_LOCKOUT_CONFIG,
      StrMap.get_set_self, Option.getD_some]
    rw [if_neg (show ¬(t2 - t1 > 15 * 60 * 1000) by omega)]
    rw [if_neg (by omega)]
  have f3 : rateLimit.recordFailedLogin email t3
      (StrMap.set (StrMap.set ls email ⟨1, t1, none⟩) email ⟨2, t2, none⟩) =
      (⟨false, none, some 2⟩,
       StrMap.set (StrMap.set (StrMap.set ls email ⟨1, t1, none⟩) email
         ⟨2, t2, none⟩) email ⟨3, t3, none⟩) := by
    simp only [rateLimit.recordFailedLogin, rateLimit.ACCOUNT_LOCKOUT_CONFIG,
      StrMap.get_set_self, Option.getD_some]
    rw [if_neg (show ¬(t3 - t2 > 15 * 60 * 1000) by omega)]
    rw [if_neg (by omega)]
  have f4 : rateLimit.recordFailedLogin email t4
      (StrMap.set (StrMap.set (StrMap.set ls email ⟨1, t1, none⟩) email
        ⟨2, t2, none⟩) email ⟨3, t3, none⟩) =
      (⟨false, none, some 1⟩,
       StrMap.set (StrMap.set (StrMap.set (StrMap.set ls email ⟨1, t1, none⟩)
         email ⟨2, t2, none⟩) email ⟨3, t3, none⟩) email ⟨4, t4, none⟩) := by
    simp only [rateLimit.recordFailedLogin, rateLimit.ACCOUNT_LOCKOUT_CONFIG,
      StrMap.get_set_self, Option.getD_some]
    rw [if_neg (show ¬(t4 - t3 > 15 * 60 * 1000) by omega)]
    rw [if_neg (by omega)]
  have f5 : rateLimit.recordFailedLogin email t5
      (StrMap.set (StrMap.set (StrMap.set (StrMap.set ls email ⟨1, t1, none⟩)
        email ⟨2, t2, none⟩) email ⟨3, t3, none⟩) email ⟨4, t4, none⟩) =
      (⟨true, some (t5 + 1800000), none⟩,
       StrMap.set (StrMap.set (StrMap.set (StrMap.set (StrMap.set ls email
         ⟨1, t1, none⟩) email ⟨2, t2, none⟩) email ⟨3, t3, none⟩) email
         ⟨4, t4, none⟩) email ⟨5, t5, some (t5 + 1800000)⟩) := by
    simp only [rateLimit.recordFailedLogin, rateLimit.ACCOUNT_LOCKOUT_CONFIG,
      StrMap.get_set_self, Option.getD_some]
    rw [if_neg (show ¬(t5 - t4 > 15 * 60 * 1000) by omega)]
    rw [if_pos (by omega)]
  constructor
  · simp [rateLimit.runFailures, f1, f2, f3, f4, f5]
  · have q1 : redisRateLimit.recordFailedLoginMemory e2 u1 rls =
        (⟨false, none⟩, StrMap.set rls e2 ⟨0, 1⟩) := by
      simp [redisRateLimit.recordFailedLoginMemory, hfresh2]
    have q2 : redisRateLimit.recordFailedLoginMemory e2 u2 (StrMap.set rls e2 ⟨0, 1⟩) =
        (⟨false, none⟩, StrMap.set (StrMap.set rls e2 ⟨0, 1⟩) e2 ⟨0, 2⟩) := by
      simp only [redisRateLimit.recordFailedLoginMemory, StrMap.get_set_self,
        Option.getD_some]
      exact rfl
    have q3 : redisRateLimit.recordFailedLoginMemory e2 u3
        (StrMap.set (StrMap.set rls e2 ⟨0, 1⟩) e2 ⟨0, 2⟩) =
        (⟨false, none⟩, StrMap.set (StrMap.set (StrMap.set rls e2 ⟨0, 1⟩) e2
          ⟨0, 2⟩) e2 ⟨0, 3⟩) := by
      simp only [redisRateLimit.recordFailedLoginMemory, StrMap.get_set_self,
        Option.getD_some]
      exact rfl
    have q4 : redisRateLimit.recordFailedLoginMemory e2 u4
        (StrMap.set (StrMap.set (StrMap.set rls e2 ⟨0, 1⟩) e2 ⟨0, 2⟩) e2 ⟨0, 3⟩) =
        (⟨false, none⟩, StrMap.set (StrMap.set (StrMap.set (StrMap.set rls e2
          ⟨0, 1⟩) e2 ⟨0, 2⟩) e2 ⟨0, 3⟩) e2 ⟨0, 4⟩) := by
      simp only [redisRateLimit.recordFailedLoginMemory, StrMap.get_set_self,
        Option.getD_some]
      exact rfl
    have q5 : redisRateLimit.recordFailedLoginMemory e2 u5
        (StrMap.set (StrMap.set (StrMap.set (StrMap.set rls e2 ⟨0, 1⟩) e2
          ⟨0, 2⟩) e2 ⟨0, 3⟩) e2 ⟨0, 4⟩) =
        (⟨true, some 900000⟩, StrMap.set (StrMap.set (StrMap.set (StrMap.set
          (StrMap.set rls e2 ⟨0, 1⟩) e2 ⟨0, 2⟩) e2 ⟨0, 3⟩) e2 ⟨0, 4⟩) e2
          ⟨u5, 5⟩) := by
      simp only [redisRateLimit.recordFailedLoginMemory, StrMap.get_set_self,
        Option.getD_some]
      exact rfl
    simp [redisRateLimit.runFailuresMemory, q1, q2, q3, q4, q5]

/-- C4 (witness). -/
theorem C4_lockout_threshold_witness :
    (rateLimit.runFailures "alice@example.com" [0, 0, 0, 0, 0] StrMap.empty).1 =
      [⟨false, none, some 4⟩, ⟨false, none, some 3⟩, ⟨false, none, some 2⟩,
       ⟨false, none, some 1⟩, ⟨true, some (0 + 1800000), none⟩]
    ∧ (redisRateLimit.runFailuresMemory "bob@example.com" [0, 0, 0, 0, 0]
        StrMap.empty).1 =
      [⟨false, none⟩, ⟨false, none⟩, ⟨false, none⟩, ⟨false, none⟩,
       ⟨true, some 900000⟩] :=
  C4_lockout_threshold "alice@example.com" "bob@example.com" StrMap.empty
    StrMap.empty 0 0 0 0 0 0 0 0 0 0 (Nat.zero_le _) (Nat.zero_le _)
    (Nat.zero_le _) (Nat.zero_le _) rfl rfl

/-- C5: for an identity whose stored lock has expired (the lock time is
positive and not after `now`), `isAccountLocked` returns locked = false,
lazily clears the stale lock (failedAttempts 0, lockedUntil gone, the last
failure time kept), and a subsequent `recordFailedLogin` counts from 1,
returning attemptsRemaining = maxFailedAttempts - 1 = 4 and storing
failedAttempts = 1. -/
theorem C5_lockout_expiry (email : String) (store : rateLimit.LockoutStore)
    (fa lf lu t1 t2 : Nat)
    (hentry : store email = some ⟨fa, lf, some lu⟩) (hlu : 0 < lu)
    (hexp : lu ≤ t1) :
    (rateLimit.isAccountLocked email t1 store).1 = ⟨false, none⟩
    ∧ ((rateLimit.isAccountLocked email t1 store).2) email = some ⟨0, lf, none⟩
    ∧ (rateLimit.recordFailedLogin email t2
        ((rateLimit.isAccountLocked email t1 store).2)).1 = ⟨false, none, some 4⟩
    ∧ ((rateLimit.recordFailedLogin email t2
        ((rateLimit.isAccountLocked email t1 store).2)).2) email
      = some ⟨1, t2, none⟩ := by
  have ha : rateLimit.isAccountLocked email t1 store =
      (⟨false, none⟩, StrMap.set store email ⟨0, lf, none⟩) := by
    simp only [rateLimit.isAccountLocked, hentry, Option.getD_some]
    rw [if_neg (by simp [jsTruthyNat]; omega), if_pos (by omega)]
  have hb : rateLimit.recordFailedLogin email t2 (StrMap.set store email ⟨0, lf, none⟩) =
      (⟨false, none, some 4⟩,
       StrMap.set (StrMap.set store email ⟨0, lf, none⟩) email ⟨1, t2, none⟩) := by
    simp only [rateLimit.recordFailedLogin, rateLimit.ACCOUNT_LOCKOUT_CONFIG,
      StrMap.get_set_self, Option.getD_some]
    simp
  rw [ha, hb]
  refine ⟨rfl, ?_, rfl, ?_⟩ <;> simp [StrMap.get_set_self]

/-- C5 (witness). -/
theorem C5_lockout_expiry_witness :
    (rateLimit.isAccountLocked "alice@example.com" 1800000 c5Store).1 = ⟨false, none⟩
    ∧ ((rateLimit.isAccountLocked "alice@example.com" 1800000 c5Store).2)
        "alice@example.com" = some ⟨0, 0, none⟩
    ∧ (rateLimit.recordFailedLogin "alice@example.com" 1800001
        ((rateLimit.isAccountLocked "alice@example.com" 1800000 c5Store).2)).1
      = ⟨false, none, some 4⟩
    ∧ ((rateLimit.recordFailedLogin "alice@example.com" 1800001
        ((rateLimit.isAccountLocked "alice@example.com" 1800000 c5Store).2)).2)
        "alice@example.com" = some ⟨1, 1800001, none⟩ :=
  C5_lockout_expiry "alice@example.com" c5Store 5 0 1800000 1800000 1800001
    rfl (by decide) (by decide)

/-- C6: infrastructure faults never surface: when the Redis call of
`checkRateLimit` raises, the call returns the in-memory fallback decision
for the same inputs instead of throwing, and whenever the try-block body of
`protect` (steps 2 to 5) ends in an internal error, the enabled gate
catches it and admits the request, returning null with the state the failed
body left behind. -/
theorem C6_fail_open (cfg : dosProtection.DoSConfig)
    (req : dosProtection.DoSRequest) (now : Nat) (rid : String)
    (redis : redisRateLimit.RedisOutcome) (fault : Option dosProtection.FaultStep)
    (st st2 : dosProtection.GateState) (ident pre : String)
    (rule : redisRateLimit.RateLimitRule) (n : Nat) (s : redisRateLimit.MemStore)
    (henabled : cfg.enabled = true)
    (hsteps : dosProtection.protectSteps cfg req now rid redis fault st
      = Except.error st2) :
    dosProtection.protect cfg req now rid redis fault st = (none, st2)
    ∧ redisRateLimit.checkRateLimit (some (Except.error ())) ident rule pre n s
      = redisRateLimit.checkRateLimitMemory ident rule pre n s := by
  constructor
  · unfold dosProtection.protect
    rw [if_neg (by simp [henabled]), hsteps]
  · rfl

/-- C6 (witness). -/
theorem C6_fail_open_witness :
    dosProtection.protect (dosProtection.serviceConfig true) reqPlain 0 "r1"
        none (some dosProtection.FaultStep.atSize) dosProtection.initialGateState
      = (none, dosProtection.initialGateState)
    ∧ redisRateLimit.checkRateLimit (some (Except.error ())) "1.2.3.4"
        ⟨60000, 3⟩ "rl" 0 StrMap.empty
      = redisRateLimit.checkRateLimitMemory "1.2.3.4" ⟨60000, 3⟩ "rl" 0
        StrMap.empty :=
  C6_fail_open (dosProtection.serviceConfig true) reqPlain 0 "r1" none
    (some dosProtection.FaultStep.atSize) dosProtection.initialGateState
    dosProtection.initialGateState "1.2.3.4" "rl" ⟨60000, 3⟩ 0 StrMap.empty
    rfl rfl

/-- C7 (counterexample): the sixth LOGIN middleware call for one IP within
the window is rate-limited, and its ready-made rejection response carries
only the Retry-After and X-RateLimit-Reset headers — no X-RateLimit-Remaining
header is set, contrary to the claim. -/
theorem C7_missing_remaining_header_counterexample :
    (rateLimit.rateLimitMiddleware rateLimit.RuleName.LOGIN "1.2.3.4"
        rateLimit.KeyType.ip 0 c7Store).1.limited = true
    ∧ ((rateLimit.rateLimitMiddleware rateLimit.RuleName.LOGIN "1.2.3.4"
        rateLimit.KeyType.ip 0 c7Store).1.response).map
        (fun r => rateLimit.headerLookup r "X-RateLimit-Remaining") = some none
    ∧ ((rateLimit.rateLimitMiddleware rateLimit.RuleName.LOGIN "1.2.3.4"
        rateLimit.KeyType.ip 0 c7Store).1.response).map
        (fun r => r.headers)
      = some [("Retry-After", "900"), ("X-RateLimit-Reset", "900000")] :=
  ⟨rfl, rfl, rfl⟩

/-- C7 (amended): every rate-limited `rateLimitMiddleware` call returns a
complete rejection response: status 429, a Retry-After header holding the
ceiling of the seconds until the reset time, an X-RateLimit-Reset header
holding the reset time, and a JSON body of shape {error: string} with the
per-IP or per-account message; no X-RateLimit-Remaining header is set (the
response builder never adds one). -/
theorem C7_rate_limit_response_amended (rn : rateLimit.RuleName) (ident : String)
    (tp : rateLimit.KeyType) (now : Nat) (s : rateLimit.RLStore)
    (hlim : (rateLimit.rateLimitMiddleware rn ident tp now s).1.limited = true) :
    ∃ resp rt,
      (rateLimit.rateLimitMiddleware rn ident tp now s).1.response = some resp
      ∧ resp.status = 429
      ∧ rateLimit.headerLookup resp "Retry-After"
          = some (toString ((rt - now + 999) / 1000))
      ∧ rateLimit.headerLookup resp "X-RateLimit-Reset" = some (toString rt)
      ∧ rateLimit.headerLookup resp "X-RateLimit-Remaining" = none
      ∧ (tp = rateLimit.KeyType.ip → resp.body
          = ⟨"Too many requests from your IP address. Please try again later."⟩)
      ∧ (tp = rateLimit.KeyType.user → resp.body
          = ⟨"Too many requests from your account. Please try again later."⟩) := by
  have hw : 0 < (rateLimit.ruleOf rn).windowMs := by
    cases rn <;> decide
  unfold rateLimit.rateLimitMiddleware at hlim ⊢
  dsimp only at hlim ⊢
  rcases hp : rateLimit.isRateLimited
      (rateLimit.getRateLimitKey tp.str ident rn.str) (rateLimit.ruleOf rn) now s
    with ⟨result, store2⟩
  rw [hp] at hlim
  dsimp only at hlim ⊢
  by_cases hl : result.limited = true
  case neg => rw [if_neg hl] at hlim; simp at hlim
  rw [if_pos hl] at hlim ⊢
  have hres := isRateLimited_limited_reset
    (rateLimit.getRateLimitKey tp.str ident rn.str) (rateLimit.ruleOf rn) now s hw
    (by rw [hp]; exact hl)
  rw [hp] at hres
  obtain ⟨rt, hrt, hpos⟩ := hres
  dsimp only at hrt
  refine ⟨_, rt, rfl, rfl, ?_, ?_, ?_, ?_, ?_⟩
  · rw [hrt]
    unfold rateLimit.createRateLimitResponse
    dsimp only
    rw [if_pos (show jsTruthyNat (some rt) = true by simp [jsTruthyNat]; omega)]
    rfl
  · rw [hrt]
    unfold rateLimit.createRateLimitResponse
    dsimp only
    rw [if_pos (show jsTruthyNat (some rt) = true by simp [jsTruthyNat]; omega)]
    rfl
  · rw [hrt]
    unfold rateLimit.createRateLimitResponse
    dsimp only
    rw [if_pos (show jsTruthyNat (some rt) = true by simp [jsTruthyNat]; omega)]
    rfl
  · intro htp; subst htp; rfl
  · intro htp; subst htp; rfl

/-- C7 (witness). -/
theorem C7_rate_limit_response_witness :
    (rateLimit.rateLimitMiddleware rateLimit.RuleName.LOGIN "1.2.3.4"
        rateLimit.KeyType.ip 0 c7Store).1.limited = true
    ∧ ((rateLimit.rateLimitMiddleware rateLimit.RuleName.LOGIN "1.2.3.4"
        rateLimit.KeyType.ip 0 c7Store).1.response).isSome = true := by
  refine ⟨rfl, ?_⟩
  obtain ⟨resp, rt, h1, -, -, -, -, -, -⟩ :=
    C7_rate_limit_response_amended rateLimit.RuleName.LOGIN "1.2.3.4"
      rateLimit.KeyType.ip 0 c7Store rfl
  rw [h1]
  rfl

/-- C8 (counterexample): with x-forwarded-for, x-real-ip and x-connecting-ip
all present, `getClientIP` of rateLimit.ts returns the first forwarded-for
entry, not the value the claimed CDN-first order would pick. -/
theorem C8_claimed_order_counterexample :
    rateLimit.getClientIP hdrsC8 = "7.7.7.7"
    ∧ claimOrderClientIP hdrsC8 = "9.9.9.9"
    ∧ rateLimit.getClientIP hdrsC8 ≠ claimOrderClientIP hdrsC8 := by
  refine ⟨rfl, rfl, ?_⟩
  decide

/-- C8 (amended): the DoSGate extractor (dosProtection.ts) tries headers in
the order cf-connecting-ip, x-real-ip, first entry of x-forwarded-for, then
falls back to the host header or "unknown"; the rateLimit.ts extractor
instead tries the first (trimmed) entry of x-forwarded-for first, then
x-real-ip, then x-connecting-ip, then "unknown" — each step taken exactly
when every earlier candidate is falsy. -/
theorem C8_client_ip_order_amended (h : StrMap String) :
    (jsTruthy (h "cf-connecting-ip") = true →
      dosProtection.getClientIP h = (h "cf-connecting-ip").getD "")
    ∧ (jsTruthy (h "cf-connecting-ip") = false → jsTruthy (h "x-real-ip") = true →
      dosProtection.getClientIP h = (h "x-real-ip").getD "")
    ∧ (jsTruthy (h "cf-connecting-ip") = false → jsTruthy (h "x-real-ip") = false →
      jsTruthy (h "x-forwarded-for") = true →
      dosProtection.getClientIP h = splitFirstTrim ((h "x-forwarded-for").getD "") ",")
    ∧ (jsTruthy (h "cf-connecting-ip") = false → jsTruthy (h "x-real-ip") = false →
      jsTruthy (h "x-forwarded-for") = false →
      dosProtection.getClientIP h = jsOr (h "host") "unknown")
    ∧ (jsTruthy ((h "x-forwarded-for").map (fun f => splitFirstTrim f ",")) = true →
      rateLimit.getClientIP h
        = ((h "x-forwarded-for").map (fun f => splitFirstTrim f ",")).getD "")
    ∧ (jsTruthy ((h "x-forwarded-for").map (fun f => splitFirstTrim f ",")) = false →
      jsTruthy (h "x-real-ip") = true →
      rateLimit.getClientIP h = (h "x-real-ip").getD "")
    ∧ (jsTruthy ((h "x-forwarded-for").map (fun f => splitFirstTrim f ",")) = false →
      jsTruthy (h "x-real-ip") = false → jsTruthy (h "x-connecting-ip") = true →
      rateLimit.getClientIP h = (h "x-connecting-ip").getD "")
    ∧ (jsTruthy ((h "x-forwarded-for").map (fun f => splitFirstTrim f ",")) = false →
      jsTruthy (h "x-real-ip") = false → jsTruthy (h "x-connecting-ip") = false →
      rateLimit.getClientIP h = "unknown") := by
  refine ⟨?_, ?_, ?_, ?_, ?_, ?_, ?_, ?_⟩
  · intro h1
    unfold dosProtection.getClientIP
    rw [if_pos h1]
  · intro h1 h2
    unfold dosProtection.getClientIP
    rw [if_neg (by simp [h1]), if_pos h2]
  · intro h1 h2 h3
    unfold dosProtection.getClientIP
    rw [if_neg (by simp [h1]), if_neg (by simp [h2]), if_pos h3]
  · intro h1 h2 h3
    unfold dosProtection.getClientIP
    rw [if_neg (by simp [h1]), if_neg (by simp [h2]), if_neg (by simp [h3])]
  · intro h1
    unfold rateLimit.getClientIP
    rw [jsOr_of_truthy _ _ h1]
  · intro h1 h2
    unfold rateLimit.getClientIP
    rw [jsOr_of_falsy _ _ h1, jsOr_of_truthy _ _ h2]
  · intro h1 h2 h3
    unfold rateLimit.getClientIP
    rw [jsOr_of_falsy _ _ h1, jsOr_of_falsy _ _ h2, jsOr_of_truthy _ _ h3]
  · intro h1 h2 h3
    unfold rateLimit.getClientIP
    rw [jsOr_of_falsy _ _ h1, jsOr_of_falsy _ _ h2, jsOr_of_falsy _ _ h3]

/-- C8 (witness). -/
theorem C8_client_ip_order_witness :
    dosProtection.getClientIP hdrsC8 = "1.1.1.1"
    ∧ rateLimit.getClientIP hdrsC8 = "7.7.7.7" := by
  constructor
  · exact ((C8_client_ip_order_amended hdrsC8).1 rfl).trans rfl
  · exact ((C8_client_ip_order_amended hdrsC8).2.2.2.2.1 rfl).trans rfl

/-- C9: when the process is not in the production profile the service
configuration has enabled = false, and `protect` then returns null (admit)
immediately with the gate state unchanged — no block-list, size,
concurrency, rate-limit or anomaly step runs and nothing is mutated. -/
theorem C9_disabled_gate_admits (isProd : Bool) (req : dosProtection.DoSRequest)
    (now : Nat) (rid : String) (redis : redisRateLimit.RedisOutcome)
    (fault : Option dosProtection.FaultStep) (st : dosProtection.GateState)
    (h : isProd = false) :
    dosProtection.protect (dosProtection.serviceConfig isProd) req now rid
      redis fault st = (none, st) := by
  subst h
  rfl

/-- C9 (witness). -/
theorem C9_disabled_gate_admits_witness :
    dosProtection.protect (dosProtection.serviceConfig false) reqPlain 0 "r1"
      none none dosProtection.initialGateState
    = (none, dosProtection.initialGateState) :=
  C9_disabled_gate_admits false reqPlain 0 "r1" none none
    dosProtection.initialGateState rfl

/-- C10 (counterexample): the empty string does not parse as a number
(parseInt gives NaN), yet a request with Content-Length "" passes the size
check (the header is falsy, so the code takes the no-header path) and the
enabled gate admits it — so not only requests without the header are passed
unchecked, contrary to the claim. -/
theorem C10_empty_content_length_counterexample :
    jsParseInt "" = none
    ∧ dosProtection.checkRequestSize (dosProtection.serviceConfig true)
        reqEmptyCL.headers = ⟨true, some 0⟩
    ∧ (dosProtection.protect (dosProtection.serviceConfig true) reqEmptyCL 0
        "r1" none none dosProtection.initialGateState).1 = none :=
  ⟨rfl, rfl, rfl⟩

/-- C10 (amended): a request with a truthy (nonempty) Content-Length header
whose value parseInt cannot parse fails the size check (NaN is not below the
maximum), and the enabled gate — for a non-blocked client — rejects it with
a 413 response, leaving state untouched; requests with no Content-Length
header, or with an empty-string value (falsy in JavaScript), are passed
through unchecked with size 0. -/
theorem C10_content_length_nan_amended (cfg cfg2 cfg3 : dosProtection.DoSConfig)
    (req : dosProtection.DoSRequest) (now : Nat) (rid : String)
    (redis : redisRateLimit.RedisOutcome) (st : dosProtection.GateState)
    (v : String) (hs hs2 : StrMap String)
    (henabled : cfg.enabled = true)
    (hns : st.suspiciousIPs.contains (dosProtection.getClientIP req.headers) = false)
    (hcl : req.headers "content-length" = some v) (hv : v ≠ "")
    (hnan : jsParseInt v = none)
    (habs : hs "content-length" = none) (hemp : hs2 "content-length" = some "") :
    dosProtection.checkRequestSize cfg req.headers = ⟨false, none⟩
    ∧ dosProtection.protect cfg req now rid redis none st
      = (some ⟨413, [], "Request too large"⟩, st)
    ∧ dosProtection.checkRequestSize cfg2 hs = ⟨true, some 0⟩
    ∧ dosProtection.checkRequestSize cfg3 hs2 = ⟨true, some 0⟩ := by
  have h1 : dosProtection.checkRequestSize cfg req.headers = ⟨false, none⟩ := by
    unfold dosProtection.checkRequestSize
    rw [hcl]
    dsimp only
    rw [if_pos (show jsTruthy (some v) = true by simp [jsTruthy, hv])]
    simp only [Option.getD_some]
    rw [hnan]
  refine ⟨h1, ?_, ?_, ?_⟩
  · unfold dosProtection.protect
    rw [if_neg (by simp [henabled])]
    unfold dosProtection.protectSteps
    dsimp only
    rw [if_neg (by rw [hns]; simp), if_neg (by simp), h1]
    simp
  · unfold dosProtection.checkRequestSize
    rw [habs]
    exact rfl
  · unfold dosProtection.checkRequestSize
    rw [hemp]
    exact rfl

/-- C10 (witness). -/
theorem C10_content_length_nan_witness :
    dosProtection.checkRequestSize (dosProtection.serviceConfig true)
      reqBadCL.headers = ⟨false, none⟩
    ∧ dosProtection.protect (dosProtection.serviceConfig true) reqBadCL 0 "r1"
        none none dosProtection.initialGateState
      = (some ⟨413, [], "Request too large"⟩, dosProtection.initialGateState)
    ∧ dosProtection.checkRequestSize (dosProtection.serviceConfig true)
        StrMap.empty = ⟨true, some 0⟩
    ∧ dosProtection.checkRequestSize (dosProtection.serviceConfig true)
        reqEmptyCL.headers = ⟨true, some 0⟩ :=
  C10_content_length_nan_amended (dosProtection.serviceConfig true)
    (dosProtection.serviceConfig true) (dosProtection.serviceConfig true)
    reqBadCL 0 "r1" none dosProtection.initialGateState "abc" StrMap.empty
    reqEmptyCL.headers rfl rfl rfl (by decide) rfl rfl rfl
